import Mathlib

/-!
Shallow embedding of the authentication / session-cache subsystem of the
goit-pythonweb-hw-10 contacts backend (src/app/core/auth.py,
src/app/crud/user.py, src/app/routes/user.py, src/app/models/user.py,
src/app/schemas/user.py).

Conventions of the embedding:
* Plaintext passwords are byte sequences (`List Nat`), matching the UTF-8
  bytes the hashing backend receives.
* The space of stored-hash strings is split into well-formed bcrypt hashes
  (salt plus a digest that, per bcrypt, depends only on the first 72 bytes
  of the password) and strings not recognized as any hash.  `verify_password`
  delegates to passlib's `CryptContext(schemes=["bcrypt"]).verify`, whose
  documented contract raises `UnknownHashError` on an unrecognized hash
  string and silently truncates secrets to 72 bytes (`truncate_error`
  defaults to off); the repository code wraps it in no handler, so errors
  propagate.  The digest is modelled as collision-free on the truncated
  input (ideal-hash assumption).
* JWTs (python-jose) and itsdangerous timed tokens are modelled as records
  carrying their claims, signing-key identifier, salt, timestamp and an
  intactness flag; signature validity is key (and salt) match plus
  intactness.  Time is an explicit `now : Nat` parameter (seconds).
* The relational store is a list of user rows; Redis is an association
  list keyed by the literal key strings the code builds, with `SET`
  modelled as shadowing insertion at the head.  TTLs are not modelled
  (no claim depends on cache expiry).
* Raised `HTTPException`s and uncaught Python exceptions are the error
  branch of `Except AppError`; handlers that can write return the
  post-state alongside the result, with an aborted (error) request
  leaving the state unchanged, as the handlers perform no prior writes.
-/

namespace Hw10

/-- Byte sequence: a plaintext password as the bytes handed to bcrypt. -/
abbrev Bytes := List Nat

/-- The bcrypt algorithm only consumes the first 72 bytes of the password;
passlib's bcrypt handler silently truncates longer secrets by default. -/
def bcryptTruncate (p : Bytes) : Bytes := p.take 72

/-- A stored-hash string: either a well-formed bcrypt modular-crypt hash
(salt and digest of the truncated plaintext) or a string that no scheme of
the passlib context recognizes. -/
inductive StoredHash where
  | bcrypt (salt : Nat) (digest : Bytes)
  | unrecognized (s : String)
deriving DecidableEq, Repr

/-- Exception raised by passlib when the stored hash string is not
recognized by any configured scheme. -/
inductive HashError where
  | unknownHash
deriving DecidableEq, Repr

/-- app/core/auth.py `get_password_hash`: `pwd_context.hash(password)` with
the bcrypt scheme; a fresh salt is drawn by the library and is passed in
here explicitly.  The digest depends only on the first 72 bytes. -/
def get_password_hash (salt : Nat) (password : Bytes) : StoredHash :=
  .bcrypt salt (bcryptTruncate password)

/-- app/core/auth.py `verify_password`: `pwd_context.verify(plain, hashed)`.
On a well-formed bcrypt hash it compares the digest of the truncated
plaintext; on an unrecognized hash string passlib raises `UnknownHashError`,
and the source wraps the call in no try/except, so the error propagates. -/
def verify_password (plain : Bytes) (hashed : StoredHash) : Except HashError Bool :=
  match hashed with
  | .bcrypt _ digest => .ok (bcryptTruncate plain == digest)
  | .unrecognized _ => .error .unknownHash

/-- app/core/auth.py `ACCESS_TOKEN_EXPIRE_MINUTES` default. -/
def ACCESS_TOKEN_EXPIRE_MINUTES : Nat := 30

/-- Decoded JWT claims relevant to the routes: the optional "sub" claim. -/
structure JwtPayload where
  sub : Option String
deriving DecidableEq, Repr

/-- A session JWT: its claims, its expiry claim, and the key it was signed
with (signature validity is modelled as key equality). -/
structure SessionToken where
  sub : Option String
  exp : Nat
  key : Nat
deriving DecidableEq, Repr

/-- app/core/auth.py `create_access_token` with the default ttl: embeds
exp = now + 30 minutes and signs with the process secret. -/
def create_access_token (secret now : Nat) (sub : Option String) : SessionToken :=
  { sub := sub, exp := now + ACCESS_TOKEN_EXPIRE_MINUTES * 60, key := secret }

/-- app/core/auth.py `decode_access_token`: `jwt.decode` checks the
signature and the exp claim; any `JWTError` (bad signature or expired)
is caught and yields `None`. -/
def decode_access_token (secret now : Nat) (t : SessionToken) : Option JwtPayload :=
  if t.key = secret ∧ now < t.exp then some { sub := t.sub } else none

/-- app/core/auth.py `RESET_PASSWORD_SALT`. -/
def RESET_PASSWORD_SALT : String := "password-reset-salt"

/-- app/core/auth.py `TOKEN_EXPIRATION_SECONDS` (1 hour). -/
def TOKEN_EXPIRATION_SECONDS : Nat := 3600

/-- An itsdangerous `URLSafeTimedSerializer` token: signed payload, the
salt it was signed under, its issuance timestamp, the signing key, and
whether the signature survived transport uncorrupted. -/
structure ResetToken where
  payload : String
  salt : String
  ts : Nat
  key : Nat
  intact : Bool
deriving DecidableEq, Repr

/-- Outcome of `URLSafeTimedSerializer.loads`. -/
inductive LoadsResult where
  | ok (value : String)
  | signatureExpired
  | badSignature
deriving DecidableEq, Repr

/-- itsdangerous `URLSafeTimedSerializer.loads(token, salt, max_age)`:
the signature (secret, salt, intactness) is checked first — `BadSignature`
on mismatch or corruption — then the age against max_age —
`SignatureExpired` (a refinement of `BadSignature` raised specifically)
when the signature is valid but too old. -/
def serializer_loads (secret now : Nat) (t : ResetToken) (salt : String)
    (maxAge : Nat) : LoadsResult :=
  if t.key = secret ∧ t.salt = salt ∧ t.intact = true then
    if maxAge < now - t.ts then .signatureExpired else .ok t.payload
  else .badSignature

/-- app/core/auth.py `generate_reset_token`: `serializer.dumps(email,
salt=RESET_PASSWORD_SALT)` — signs the email under the reset salt with the
process secret, stamping the current time. -/
def generate_reset_token (secret now : Nat) (email : String) : ResetToken :=
  { payload := email, salt := RESET_PASSWORD_SALT, ts := now,
    key := secret, intact := true }

/-- Errors a route can surface: an `HTTPException` with status and detail,
or an uncaught Python exception (named), which the framework turns into a
500 response. -/
inductive AppError where
  | http (status : Nat) (detail : String)
  | exn (name : String)
deriving DecidableEq, Repr

/-- app/core/auth.py `verify_reset_token`: loads the token with the reset
salt and the default 3600 s max age; `SignatureExpired` is caught first and
mapped to 400 "The reset token has expired.", the remaining `BadSignature`
to 400 "Invalid reset token.". -/
def verify_reset_token (secret now : Nat) (token : ResetToken)
    (expiration : Nat := TOKEN_EXPIRATION_SECONDS) : Except AppError String :=
  match serializer_loads secret now token RESET_PASSWORD_SALT expiration with
  | .ok email => .ok email
  | .signatureExpired => .error (.http 400 "The reset token has expired.")
  | .badSignature => .error (.http 400 "Invalid reset token.")

/-- app/models/user.py `User`: one row of the `users` table. -/
structure User where
  id : Nat
  email : String
  hashed_password : StoredHash
  is_active : Bool
  is_verified : Bool
  avatar_url : Option String
  role : String
deriving DecidableEq, Repr

/-- The relational store: the `users` table. -/
abbrev Db := List User

/-- The Redis mirror: key/value pairs of serialized user snapshots
(`SET` shadows older bindings; `List.lookup` finds the newest). -/
abbrev Cache := List (String × User)

/-- app/crud/user.py `get_user_by_email`: `SELECT ... WHERE email = :email`,
first row or `None`. -/
def get_user_by_email (db : Db) (email : String) : Option User :=
  db.find? (fun u => u.email == email)

/-- The cache key the code builds in both crud functions. -/
def user_key (email : String) : String := "user:" ++ email

/-- app/crud/user.py `store_in_redis`: serializes id, email,
hashed_password, is_active, is_verified, avatar_url and role and writes
them under `"user:" + email` (with a 3600 s TTL, not modelled). -/
def store_in_redis (cache : Cache) (user : User) : Cache :=
  (user_key user.email, user) :: cache

/-- app/crud/user.py `get_user_by_email_from_redis`: `GET "user:" + email`,
`None` when the key is absent, otherwise the deserialized `User(**data)`. -/
def get_user_by_email_from_redis (cache : Cache) (email : String) : Option User :=
  cache.lookup (user_key email)

/-- app/crud/user.py `create_user`: hashes the password and inserts a row;
the column defaults of the model apply (is_active true, is_verified false,
avatar_url NULL, role "user").  The autoincremented id and the hashing salt
are drawn by the store and the library, passed in here explicitly. -/
def create_user (db : Db) (newId salt : Nat) (email : String)
    (password : Bytes) : User × Db :=
  let u : User :=
    { id := newId, email := email,
      hashed_password := get_password_hash salt password,
      is_active := true, is_verified := false,
      avatar_url := none, role := "user" }
  (u, db ++ [u])

/-- Combined backend state: the system of record and the profile cache. -/
structure State where
  db : Db
  cache : Cache
deriving DecidableEq, Repr

/-- Replace the first row with the given email (SQLAlchemy mutates the
fetched ORM object in place and commits). -/
def update_first_by_email (db : Db) (email : String) (newUser : User) : Db :=
  match db with
  | [] => []
  | u :: rest =>
    if u.email == email then newUser :: rest
    else u :: update_first_by_email rest email newUser

/-- app/core/auth.py `update_user_password`: fetch by email, 404 when
absent, otherwise overwrite `hashed_password` with a fresh hash of the new
password and commit. -/
def update_user_password (db : Db) (salt : Nat) (email : String)
    (newPassword : Bytes) : Except AppError User × Db :=
  match get_user_by_email db email with
  | none => (.error (.http 404 "User not found"), db)
  | some u =>
    let u2 := { u with hashed_password := get_password_hash salt newPassword }
    (.ok u2, update_first_by_email db email u2)

/-- app/schemas/user.py `UserOut`: the public profile view returned by the
routes (everything except the stored hash). -/
structure UserOut where
  email : String
  id : Nat
  is_active : Bool
  is_verified : Bool
  avatar_url : Option String
  role : String
deriving DecidableEq, Repr

/-- Projection of a row to its `UserOut` response body. -/
def toUserOut (u : User) : UserOut :=
  { email := u.email, id := u.id, is_active := u.is_active,
    is_verified := u.is_verified, avatar_url := u.avatar_url,
    role := u.role }

/-- app/routes/user.py `register` (POST /auth/register): 409 when a user
with the email already exists, otherwise create and return the new row. -/
def register (st : State) (newId salt : Nat) (email : String)
    (password : Bytes) : Except AppError User × State :=
  match get_user_by_email st.db email with
  | some _ => (.error (.http 409 "User with this email already exists"), st)
  | none =>
    let p := create_user st.db newId salt email password
    (.ok p.1, { st with db := p.2 })

/-- app/routes/user.py `login` (POST /auth/login): look up the user; a
missing user short-circuits past verification; a missing user or a failed
verification both raise 401 "Incorrect email or password"; on success issue
a token for `user.email` and write the profile through to Redis.  An
exception escaping `verify_password` propagates uncaught. -/
def login (secret now : Nat) (st : State) (username : String)
    (password : Bytes) : Except AppError SessionToken × State :=
  match get_user_by_email st.db username with
  | none => (.error (.http 401 "Incorrect email or password"), st)
  | some u =>
    match verify_password password u.hashed_password with
    | .error _ => (.error (.exn "UnknownHashError"), st)
    | .ok ok =>
      if ok then
        (.ok (create_access_token secret now (some u.email)),
         { st with cache := store_in_redis st.cache u })
      else (.error (.http 401 "Incorrect email or password"), st)

/-- app/routes/user.py `read_users_me` (GET /auth/me): decode the token
(401 when invalid or lacking "sub"), then read the profile from Redis only
— 404 on a cache miss, never falling back to the database. -/
def read_users_me (secret now : Nat) (st : State) (token : SessionToken) :
    Except AppError User :=
  match decode_access_token secret now token with
  | none => .error (.http 401 "Invalid token")
  | some payload =>
    match payload.sub with
    | none => .error (.http 401 "Invalid token")
    | some email =>
      match get_user_by_email_from_redis st.cache email with
      | none => .error (.http 404 "User not found")
      | some u => .ok u

/-- Python truthiness of `email or emailSub`: both `None` and the empty
string fall back to the token's subject. -/
def resolve_target_email (email : Option String) (emailSub : String) : String :=
  match email with
  | some e => if e = "" then emailSub else e
  | none => emailSub

/-- app/routes/user.py `update_avatar` (POST /auth/avatar): decode the
token (401), resolve the target email (`email or emailSub`), fetch the
acting user from Redis and the target from the database; 404 when the
target row is absent; only then read `userLoggedIn.role` — an
`AttributeError` when the cache missed — and 403 unless it is "admin";
upload (500 on failure), then write the new URL to the row and refresh
the cache with the updated row.  The upload outcome is an input. -/
def update_avatar (secret now : Nat) (st : State) (token : SessionToken)
    (email : Option String) (uploadResult : Except String String) :
    Except AppError User × State :=
  match decode_access_token secret now token with
  | none => (.error (.http 401 "Invalid token"), st)
  | some payload =>
    match payload.sub with
    | none => (.error (.http 401 "Invalid token"), st)
    | some emailSub =>
      let user_email := resolve_target_email email emailSub
      let userLoggedIn := get_user_by_email_from_redis st.cache emailSub
      match get_user_by_email st.db user_email with
      | none => (.error (.http 404 "User not found"), st)
      | some user =>
        match userLoggedIn with
        | none => (.error (.exn "AttributeError"), st)
        | some ul =>
          if ul.role = "admin" then
            match uploadResult with
            | .error e =>
              (.error (.http 500 ("Avatar upload failed: " ++ e)), st)
            | .ok url =>
              let user2 := { user with avatar_url := some url }
              (.ok user2,
               { db := update_first_by_email st.db user.email user2,
                 cache := store_in_redis st.cache user2 })
          else
            (.error (.http 403 "Only admins are allowed to update avatar"), st)

/-- app/routes/user.py `reset_password` (POST /auth/reset-password):
verify the reset token (its 400s propagate), then rewrite the password
hash via `update_user_password` (its 404 propagates).  The handler never
touches Redis. -/
def reset_password (secret now : Nat) (st : State) (token : ResetToken)
    (salt : Nat) (newPassword : Bytes) : Except AppError String × State :=
  match verify_reset_token secret now token with
  | .error e => (.error e, st)
  | .ok email =>
    match update_user_password st.db salt email newPassword with
    | (.error e, db2) => (.error e, { st with db := db2 })
    | (.ok _, db2) =>
      (.ok "Password has been reset successfully.", { st with db := db2 })

/-! ### Concrete fixtures used to instantiate the theorems -/

/-- Fixture: an ordinary (non-admin) user row, password hash of "pw". -/
def sampleUser : User :=
  { id := 1, email := "a@x.com",
    hashed_password := get_password_hash 0 [112, 119],
    is_active := true, is_verified := false,
    avatar_url := none, role := "user" }

/-- Fixture: a state whose store and cache both hold `sampleUser`. -/
def sampleState : State :=
  { db := [sampleUser], cache := [(user_key "a@x.com", sampleUser)] }

/-- Fixture: a state whose cache holds `sampleUser` but whose store is
empty. -/
def sampleStateNoDb : State :=
  { db := [], cache := [(user_key "a@x.com", sampleUser)] }

/-- Fixture: a session token for `sampleUser` signed with key 7, expiring
at time 200. -/
def sampleToken : SessionToken :=
  { sub := some "a@x.com", exp := 200, key := 7 }

/-! ## Claim C2 — verification on a malformed stored hash -/

/-- Counterexample to C2: on a stored-hash string that is not a well-formed
output of the hasher, `verify_password` raises (`UnknownHashError`
propagates out of the source, which has no handler); it does not return
false. -/
theorem C2_counterexample :
    verify_password [120] (StoredHash.unrecognized "notahash") =
      .error .unknownHash ∧
    verify_password [120] (StoredHash.unrecognized "notahash") ≠
      .ok false := by
  refine ⟨rfl, ?_⟩
  intro h
  exact Except.noConfusion h

/-- C2 (amended): `verify_password` never raises on a well-formed stored
hash (it returns a Boolean), but on a stored-hash string that is not a
well-formed output of the hasher it raises `UnknownHashError` rather than
returning false. -/
theorem C2_verify_malformed_hash_raises (p : Bytes) :
    (∀ salt digest, ∃ b : Bool,
      verify_password p (StoredHash.bcrypt salt digest) = .ok b) ∧
    (∀ s, verify_password p (StoredHash.unrecognized s) =
      .error .unknownHash) := by
  refine ⟨fun salt digest => ⟨bcryptTruncate p == digest, rfl⟩, fun s => rfl⟩

/-! ## Claim C3 — hash / verify round trip -/

/-- Counterexample to C3: bcrypt only consumes the first 72 bytes of the
password, so two distinct plaintexts agreeing on their first 72 bytes
verify against each other's hashes. -/
theorem C3_counterexample :
    (List.replicate 72 97 ++ [98] : Bytes) ≠ List.replicate 73 97 ∧
    verify_password (List.replicate 72 97 ++ [98])
      (get_password_hash 0 (List.replicate 73 97)) = .ok true := by
  constructor
  · decide
  · rfl

/-- C3 (amended): `verify(p, hash(p))` is true for every plaintext p, and
`verify(p', hash(p))` is false whenever p' and p differ within their first
72 bytes; when two distinct plaintexts agree on their first 72 bytes the
second conjunct fails (see the counterexample), since bcrypt truncates the
password to 72 bytes. -/
theorem C3_verify_roundtrip (salt : Nat) (p q : Bytes)
    (h : bcryptTruncate q ≠ bcryptTruncate p) :
    verify_password p (get_password_hash salt p) = .ok true ∧
    verify_password q (get_password_hash salt p) = .ok false := by
  constructor
  · simp [verify_password, get_password_hash]
  · simp [verify_password, get_password_hash, h]

/-- Witness for C3 at concrete inputs: "a" round-trips, and "b" does not
verify against the hash of "a". -/
theorem C3_verify_roundtrip_witness :
    verify_password [97] (get_password_hash 5 [97]) = .ok true ∧
    verify_password [98] (get_password_hash 5 [97]) = .ok false :=
  C3_verify_roundtrip 5 [97] [98] (by decide)

/-! ## Claim C8 — reset-token verification trichotomy -/

/-- C8: reset-token verification yields exactly one of three outcomes:
the embedded identity when the signature is valid and the age is within
the 3600 s default max age; the expiry-specific 400 when the signature is
valid but the age exceeds it; and the invalid-token 400 when the signature
is invalid or the token corrupt — and the two failures are
distinguishable. -/
theorem C8_reset_token_trichotomy (secret now : Nat) (t : ResetToken) :
    (t.key = secret ∧ t.salt = RESET_PASSWORD_SALT ∧ t.intact = true ∧
        now - t.ts ≤ TOKEN_EXPIRATION_SECONDS →
      verify_reset_token secret now t = .ok t.payload) ∧
    (t.key = secret ∧ t.salt = RESET_PASSWORD_SALT ∧ t.intact = true ∧
        TOKEN_EXPIRATION_SECONDS < now - t.ts →
      verify_reset_token secret now t =
        .error (.http 400 "The reset token has expired.")) ∧
    (¬(t.key = secret ∧ t.salt = RESET_PASSWORD_SALT ∧ t.intact = true) →
      verify_reset_token secret now t =
        .error (.http 400 "Invalid reset token.")) ∧
    AppError.http 400 "The reset token has expired." ≠
      AppError.http 400 "Invalid reset token." := by
  refine ⟨?_, ?_, ?_, by decide⟩
  · rintro ⟨h1, h2, h3, h4⟩
    simp [verify_reset_token, serializer_loads, h1, h2, h3, Nat.not_lt.mpr h4]
  · rintro ⟨h1, h2, h3, h4⟩
    simp [verify_reset_token, serializer_loads, h1, h2, h3, h4]
  · intro h
    unfold verify_reset_token serializer_loads
    rw [if_neg h]

/-- Witness for C8: a token issued at time 100 with key 7 verifies at time
100; verifies as expired at time 5000; and verifies as invalid under the
wrong key 8. -/
theorem C8_reset_token_trichotomy_witness :
    verify_reset_token 7 100 (generate_reset_token 7 100 "a@x.com") =
      .ok "a@x.com" ∧
    verify_reset_token 7 5000 (generate_reset_token 7 100 "a@x.com") =
      .error (.http 400 "The reset token has expired.") ∧
    verify_reset_token 8 100 (generate_reset_token 7 100 "a@x.com") =
      .error (.http 400 "Invalid reset token.") :=
  ⟨(C8_reset_token_trichotomy 7 100 (generate_reset_token 7 100 "a@x.com")).1
      ⟨rfl, rfl, rfl, by decide⟩,
   (C8_reset_token_trichotomy 7 5000
      (generate_reset_token 7 100 "a@x.com")).2.1 ⟨rfl, rfl, rfl, by decide⟩,
   (C8_reset_token_trichotomy 8 100
      (generate_reset_token 7 100 "a@x.com")).2.2.1 (by decide)⟩

/-! ## Claim C9 — reset-password frame conditions -/

/-- C9: a successful password reset changes only the target row's
`hashed_password` (the row's other fields and all other rows are carried
over by `update_first_by_email`), and the profile cache is left exactly as
it was — neither refreshed nor deleted. -/
theorem C9_reset_password_frame (secret now : Nat) (st : State)
    (t : ResetToken) (salt : Nat) (p : Bytes) (email : String) (u : User)
    (hver : verify_reset_token secret now t = .ok email)
    (hfind : get_user_by_email st.db email = some u) :
    reset_password secret now st t salt p =
      (.ok "Password has been reset successfully.",
       { db := update_first_by_email st.db email
           { u with hashed_password := get_password_hash salt p },
         cache := st.cache }) := by
  unfold reset_password
  rw [hver]
  simp [update_user_password, hfind]

/-- Witness for C9 at a concrete state: resetting `sampleUser`'s password
with a fresh token rewrites only the stored hash and leaves the cache
entry untouched. -/
theorem C9_reset_password_frame_witness :
    reset_password 7 100 sampleState (generate_reset_token 7 100 "a@x.com")
        3 [110, 112] =
      (.ok "Password has been reset successfully.",
       { db := update_first_by_email sampleState.db "a@x.com"
           { sampleUser with hashed_password := get_password_hash 3 [110, 112] },
         cache := sampleState.cache }) :=
  C9_reset_password_frame 7 100 sampleState
    (generate_reset_token 7 100 "a@x.com") 3 [110, 112] "a@x.com" sampleUser
    rfl rfl

/-! ## Claim C4 — read-profile (Authenticate) case analysis -/

/-- C4: reading the profile returns 401 when the session token fails to
decode, 404 when the token carries a subject absent from the cache (and
the handler never consults the system of record: the result is invariant
under any change to the database), and the cached profile otherwise. -/
theorem C4_read_profile_cases (secret now : Nat) (st : State)
    (token : SessionToken) :
    (decode_access_token secret now token = none →
      read_users_me secret now st token = .error (.http 401 "Invalid token")) ∧
    (∀ email,
      decode_access_token secret now token = some { sub := some email } →
      get_user_by_email_from_redis st.cache email = none →
      read_users_me secret now st token =
        .error (.http 404 "User not found")) ∧
    (∀ email u,
      decode_access_token secret now token = some { sub := some email } →
      get_user_by_email_from_redis st.cache email = some u →
      read_users_me secret now st token = .ok u) ∧
    (∀ db2, read_users_me secret now { st with db := db2 } token =
      read_users_me secret now st token) := by
  refine ⟨?_, ?_, ?_, fun db2 => rfl⟩
  · intro h
    unfold read_users_me
    rw [h]
  · intro email hdec hmiss
    unfold read_users_me
    rw [hdec]
    simp [hmiss]
  · intro email u hdec hhit
    unfold read_users_me
    rw [hdec]
    simp [hhit]

/-- Witness for C4: at concrete states, a token signed with the wrong key
yields 401, a good token over an empty cache yields 404, and a good token
over `sampleState`'s cache returns the cached `sampleUser`. -/
theorem C4_read_profile_cases_witness :
    read_users_me 7 100 sampleState { sub := some "a@x.com", exp := 200, key := 8 } =
      .error (.http 401 "Invalid token") ∧
    read_users_me 7 100 { db := [sampleUser], cache := [] } sampleToken =
      .error (.http 404 "User not found") ∧
    read_users_me 7 100 sampleState sampleToken = .ok sampleUser :=
  ⟨(C4_read_profile_cases 7 100 sampleState
      { sub := some "a@x.com", exp := 200, key := 8 }).1 rfl,
   (C4_read_profile_cases 7 100 { db := [sampleUser], cache := [] }
      sampleToken).2.1 "a@x.com" rfl rfl,
   (C4_read_profile_cases 7 100 sampleState sampleToken).2.2.1 "a@x.com"
      sampleUser rfl rfl⟩

/-! ## Claim C5 — login writes the cache; immediate authenticate agrees -/

/-- C5: a login with a stored record's identity and a password verifying
against its hash issues a token whose subject is that identity and writes
the full profile snapshot to the cache under `"user:" + identity`; an
immediately following authenticate with that token then succeeds and
returns a profile equal to the stored record (so in particular its public
fields agree). -/
theorem C5_login_then_authenticate (secret now : Nat) (st : State)
    (u : User) (p : Bytes)
    (hfind : get_user_by_email st.db u.email = some u)
    (hverify : verify_password p u.hashed_password = .ok true) :
    login secret now st u.email p =
      (.ok (create_access_token secret now (some u.email)),
       { st with cache := store_in_redis st.cache u }) ∧
    get_user_by_email_from_redis (store_in_redis st.cache u) u.email = some u ∧
    ∃ prof, read_users_me secret now { st with cache := store_in_redis st.cache u }
        (create_access_token secret now (some u.email)) = .ok prof ∧
      toUserOut prof = toUserOut u := by
  have hexp : now < now + ACCESS_TOKEN_EXPIRE_MINUTES * 60 :=
    Nat.lt_add_of_pos_right (by decide)
  have hdec : decode_access_token secret now
      (create_access_token secret now (some u.email)) =
      some { sub := some u.email } := by
    simp [decode_access_token, create_access_token, hexp]
  have hget : get_user_by_email_from_redis (store_in_redis st.cache u) u.email =
      some u := by
    simp [get_user_by_email_from_redis, store_in_redis, List.lookup]
  refine ⟨?_, hget, u, ?_, rfl⟩
  · unfold login
    rw [hfind]
    simp [hverify]
  · unfold read_users_me
    rw [hdec]
    simp [hget]

/-- Witness for C5: logging `sampleUser` in with the password "pw" on a
state with an empty cache populates the cache and an immediate
authenticate returns the record. -/
theorem C5_login_then_authenticate_witness :
    login 7 100 { db := [sampleUser], cache := [] } "a@x.com" [112, 119] =
      (.ok (create_access_token 7 100 (some "a@x.com")),
       { db := [sampleUser], cache := store_in_redis [] sampleUser }) ∧
    get_user_by_email_from_redis (store_in_redis [] sampleUser) "a@x.com" =
      some sampleUser ∧
    ∃ prof, read_users_me 7 100
        { db := [sampleUser], cache := store_in_redis [] sampleUser }
        (create_access_token 7 100 (some "a@x.com")) = .ok prof ∧
      toUserOut prof = toUserOut sampleUser :=
  C5_login_then_authenticate 7 100 { db := [sampleUser], cache := [] }
    sampleUser [112, 119] rfl rfl

/-! ## Claim C6 — register: conflict or create -/

/-- C6: registering an identity that already has a record fails with 409
and leaves the state unchanged; otherwise a new record is created whose
hash is the hasher's output on the password, appended to the store, and
its public profile view is returned. -/
theorem C6_register_conflict_or_create (st : State) (newId salt : Nat)
    (email : String) (p : Bytes) :
    ((∃ u, get_user_by_email st.db email = some u) →
      register st newId salt email p =
        (.error (.http 409 "User with this email already exists"), st)) ∧
    (get_user_by_email st.db email = none →
      ∃ u2, register st newId salt email p =
          (.ok u2, { st with db := st.db ++ [u2] }) ∧
        u2.hashed_password = get_password_hash salt p ∧
        toUserOut u2 =
          { email := email, id := newId, is_active := true,
            is_verified := false, avatar_url := none, role := "user" }) := by
  constructor
  · rintro ⟨u, hu⟩
    unfold register
    rw [hu]
  · intro h
    refine ⟨{ id := newId, email := email,
              hashed_password := get_password_hash salt p,
              is_active := true, is_verified := false,
              avatar_url := none, role := "user" }, ?_, rfl, rfl⟩
    unfold register
    rw [h]
    rfl

/-- Witness for C6: registering "a@x.com" against `sampleState` conflicts
and leaves the state unchanged; registering it against the empty state
creates the record. -/
theorem C6_register_conflict_or_create_witness :
    register sampleState 2 4 "a@x.com" [113] =
      (.error (.http 409 "User with this email already exists"),
       sampleState) ∧
    ∃ u2, register { db := [], cache := [] } 2 4 "a@x.com" [113] =
        (.ok u2, { db := [] ++ [u2], cache := [] }) ∧
      u2.hashed_password = get_password_hash 4 [113] ∧
      toUserOut u2 =
        { email := "a@x.com", id := 2, is_active := true,
          is_verified := false, avatar_url := none, role := "user" } :=
  ⟨(C6_register_conflict_or_create sampleState 2 4 "a@x.com" [113]).1
      ⟨sampleUser, rfl⟩,
   (C6_register_conflict_or_create { db := [], cache := [] } 2 4
      "a@x.com" [113]).2 rfl⟩

/-! ## Claim C7 — login failures are indistinguishable -/

/-- C7: a login naming an identity with no record and a login naming an
existing identity with a non-verifying password produce identical
externally visible outcomes: the very same 401 error with the same
generic message. -/
theorem C7_login_enumeration_resistance (secret now : Nat) (st1 st2 : State)
    (e1 e2 : String) (p1 p2 : Bytes) (u : User)
    (h1 : get_user_by_email st1.db e1 = none)
    (h2 : get_user_by_email st2.db e2 = some u)
    (hv : verify_password p2 u.hashed_password = .ok false) :
    (login secret now st1 e1 p1).1 = (login secret now st2 e2 p2).1 ∧
    (login secret now st1 e1 p1).1 =
      .error (.http 401 "Incorrect email or password") := by
  have g1 : login secret now st1 e1 p1 =
      (.error (.http 401 "Incorrect email or password"), st1) := by
    unfold login
    rw [h1]
  have g2 : login secret now st2 e2 p2 =
      (.error (.http 401 "Incorrect email or password"), st2) := by
    unfold login
    rw [h2]
    simp [hv]
  rw [g1, g2]
  exact ⟨rfl, rfl⟩

/-- Witness for C7: the unknown identity "b@x.com" and `sampleUser` with
the wrong password "q" both fail with the same 401 message. -/
theorem C7_login_enumeration_resistance_witness :
    (login 7 100 { db := [], cache := [] } "b@x.com" [113]).1 =
      (login 7 100 sampleState "a@x.com" [113]).1 ∧
    (login 7 100 { db := [], cache := [] } "b@x.com" [113]).1 =
      .error (.http 401 "Incorrect email or password") :=
  C7_login_enumeration_resistance 7 100 { db := [], cache := [] } sampleState
    "b@x.com" "a@x.com" [113] [113] sampleUser rfl rfl rfl

/-! ## Claim C1 — avatar update requires the admin role -/

/-- C1: for an avatar-update request whose session token decodes to a
subject whose cached profile does not have role "admin", the operation
fails with 403 Forbidden whenever the target record exists — in
particular when the target identity is the acting identity itself
(target email omitted or equal to the subject). -/
theorem C1_nonadmin_avatar_forbidden (secret now : Nat) (st : State)
    (token : SessionToken) (email : Option String)
    (uploadResult : Except String String) (emailSub : String)
    (ul target : User)
    (hdec : decode_access_token secret now token =
      some { sub := some emailSub })
    (hcache : get_user_by_email_from_redis st.cache emailSub = some ul)
    (hrole : ul.role ≠ "admin")
    (htarget : get_user_by_email st.db (resolve_target_email email emailSub) =
      some target) :
    update_avatar secret now st token email uploadResult =
      (.error (.http 403 "Only admins are allowed to update avatar"), st) := by
  unfold update_avatar
  rw [hdec]
  simp [hcache, htarget, hrole]

/-- Witness for C1: `sampleUser` (role "user"), acting on itself with no
explicit target email and a would-be-successful upload, is still
forbidden. -/
theorem C1_nonadmin_avatar_forbidden_witness :
    update_avatar 7 100 sampleState sampleToken none (.ok "http://img") =
      (.error (.http 403 "Only admins are allowed to update avatar"),
       sampleState) :=
  C1_nonadmin_avatar_forbidden 7 100 sampleState sampleToken none
    (.ok "http://img") "a@x.com" sampleUser sampleUser rfl rfl
    (by decide) rfl

/-! ## Claim C10 — existence check precedes the role check -/

/-- C10: in the avatar update, the target-existence check runs before the
role check: with a valid token and a cached non-admin acting identity, a
target identity with no record yields 404 NotFound — an outcome distinct
from the 403 Forbidden a non-admin gets on an existing target — so a
non-admin caller can probe whether an identity exists. -/
theorem C10_notfound_before_forbidden (secret now : Nat) (st : State)
    (token : SessionToken) (email : Option String)
    (uploadResult : Except String String) (emailSub : String) (ul : User)
    (hdec : decode_access_token secret now token =
      some { sub := some emailSub })
    (hcache : get_user_by_email_from_redis st.cache emailSub = some ul)
    (hrole : ul.role ≠ "admin")
    (htarget : get_user_by_email st.db (resolve_target_email email emailSub) =
      none) :
    update_avatar secret now st token email uploadResult =
      (.error (.http 404 "User not found"), st) ∧
    AppError.http 404 "User not found" ≠
      AppError.http 403 "Only admins are allowed to update avatar" := by
  constructor
  · unfold update_avatar
    rw [hdec]
    simp [htarget]
  · decide

/-- Witness for C10: the non-admin `sampleUser` probing the unknown target
"b@x.com" on a state whose store is empty receives 404, not 403. -/
theorem C10_notfound_before_forbidden_witness :
    update_avatar 7 100 sampleStateNoDb sampleToken (some "b@x.com")
        (.ok "http://img") =
      (.error (.http 404 "User not found"), sampleStateNoDb) ∧
    AppError.http 404 "User not found" ≠
      AppError.http 403 "Only admins are allowed to update avatar" :=
  C10_notfound_before_forbidden 7 100 sampleStateNoDb sampleToken
    (some "b@x.com") (.ok "http://img") "a@x.com" sampleUser rfl rfl
    (by decide) rfl

end Hw10
